import Mathlib

/-!
# Verification of `build.py` (IDAPython custom build script)

This file is a shallow embedding of the build orchestration logic of
`src/build.py` into Lean 4, together with theorems settling the frozen
claims about that script.

Modelling conventions:
* File-system paths are lists of path components (`Path := List String`);
  `os.path.join a b` becomes `a ++ [b]`, `os.path.basename` takes the last
  component and `os.path.dirname` drops it.  Command-line tokens (which are
  mere strings to the spawned tools) stay plain `String`s, with
  `os.path.join` on them rendered as `a ++ "/" ++ b`.
* The file system and the zip archives are explicit state
  (`DistState`): association lists from paths to file contents and from
  archive paths to entry lists.  `shutil`, `os` and `zipfile` operations
  are modelled by their documented behaviour (in particular,
  `zipfile.ZipFile(p, "a")` creates a fresh empty archive when the file
  does not exist, and `shutil.copyfile` raises when the source is
  missing).
* External processes (`subprocess.check_call`) are modelled by an oracle
  `ok : List String → Bool` giving each argv's success; a failing call
  aborts the remaining steps, as `check_call`'s exception / the script's
  `assert`s do.
* The mutable global `SWIG_OPTIONS` is threaded explicitly: every
  function that reads or mutates it takes the current list and returns
  the updated one.
-/

namespace BuildPy

/-- A file-system path, as a list of components. -/
abbrev Path := List String

/-- `os.path.basename`: the last path component (`""` for an empty path). -/
def basenameP (p : Path) : String := p.getLastD ""

/-- `os.path.join` on command-line token strings. -/
def pjoinS (a b : String) : String := a ++ "/" ++ b

/-- First-match association-list lookup (used for files and archives). -/
def alookup {α : Type} : List (Path × α) → Path → Option α
  | [], _ => none
  | (k, v) :: l, p => if p = k then some v else alookup l p

theorem alookup_cons {α : Type} (k : Path) (v : α) (l : List (Path × α)) (p : Path) :
    alookup ((k, v) :: l) p = if p = k then some v else alookup l p := rfl

-- ---------------------------------------------------------------------
-- Toolchain abstraction (`BuilderBase`, `GCCBuilder`, `MSVCBuilder`)
-- ---------------------------------------------------------------------

/-- A macro token: either a bare name or a `(name, value)` pair, as the
items of `COMMON_MACROS` / `platform_macros` in the script. -/
inductive MTok where
  | bare (s : String)
  | defn (n v : String)
deriving DecidableEq

/-- `BuilderBase._build_command_string`: prefix every token with the
directive, rendering pairs as `name=value`. -/
def buildCmdString (tokens : List MTok) (directive : String) : List String :=
  tokens.map fun t =>
    match t with
    | .bare s => directive ++ s
    | .defn n v => directive ++ n ++ "=" ++ v

/-- The per-toolchain parameter table plus the token-formatting functions
of one concrete builder class. -/
structure Builder where
  include_directive : String
  define_directive : String
  libpath_directive : String
  compiler_parameters : List String
  linker_parameters : List String
  basemacros : List MTok
  compiler : String
  linker : String
  source_extension : String
  object_extension : String
  compiler_in_string : String → List String
  compiler_out_string : String → List String
  linker_out_string : String → List String

/-- `GCCBuilder.__init__`. -/
def GCCBuilder : Builder where
  include_directive := "-I"
  define_directive := "-D"
  libpath_directive := "-L"
  compiler_parameters := ["-m32", "-fpermissive", "-Wno-write-strings"]
  linker_parameters := ["-m32", "-shared"]
  basemacros := []
  compiler := "g++"
  linker := "g++"
  source_extension := ".cpp"
  object_extension := ".o"
  compiler_in_string := fun filename => ["-c", filename]
  compiler_out_string := fun filename => ["-o", filename]
  linker_out_string := fun filename => ["-o", filename]

/-- `MSVCBuilder.__init__`. -/
def MSVCBuilder : Builder where
  include_directive := "/I"
  define_directive := "/D"
  libpath_directive := "/LIBPATH:"
  compiler_parameters := ["/nologo", "/EHsc"]
  linker_parameters := ["/nologo", "/dll", "/export:PLUGIN"]
  basemacros := [.bare "WIN32", .bare "_USRDLL", .bare "__NT__"]
  compiler := "cl"
  linker := "link"
  source_extension := ".cpp"
  object_extension := ".obj"
  compiler_in_string := fun filename => ["/c", filename]
  compiler_out_string := fun filename => ["/Fo" ++ filename]
  linker_out_string := fun filename => ["/out:" ++ filename]

-- Version constants and common macro/include sets of the script.

def VERSION_MAJOR : Nat := 1
def VERSION_MINOR : Nat := 7
def VERSION_PATCH : Nat := 2
def IDA_MAJOR_VERSION : Nat := 6
def IDA_MINOR_VERSION : Nat := 8

/-- `COMMON_MACROS`. -/
def COMMON_MACROS : List MTok :=
  [ .defn "VER_MAJOR" (toString VERSION_MAJOR),
    .defn "VER_MINOR" (toString VERSION_MINOR),
    .defn "VER_PATCH" (toString VERSION_PATCH),
    .bare "__IDP__",
    .defn "MAXSTR" "1024",
    .bare "USE_DANGEROUS_FUNCTIONS",
    .bare "USE_STANDARD_FILE_FUNCTIONS" ]

/-- `COMMON_INCLUDES`. -/
def COMMON_INCLUDES : List String := [".", "swig"]

/-- `SWIG_BIN` with no `--swig-bin` argument. -/
def SWIG_BIN : String := "swig"

/-- The initial value of the mutable global `SWIG_OPTIONS`
(no `--swig-inc` paths given). -/
def SWIG_OPTIONS_init : List String :=
  ["-modern", "-python", "-threads", "-c++", "-w451", "-shadow", "-D__GNUC__"]

/-- `BuilderBase.compile` with `objectname=None`: the full compiler argv. -/
def Builder.compileArgv (b : Builder) (source : String)
    (includes : List String) (macros : List MTok) : List String :=
  let allmacros := COMMON_MACROS ++ b.basemacros ++ macros
  let defines_argv := buildCmdString allmacros b.define_directive
  let allincludes := COMMON_INCLUDES ++ includes
  let includes_argv := buildCmdString (allincludes.map .bare) b.include_directive
  let objectname := source ++ b.object_extension
  [b.compiler] ++ b.compiler_parameters
    ++ b.compiler_out_string objectname
    ++ b.compiler_in_string (source ++ b.source_extension)
    ++ includes_argv ++ defines_argv

/-- `BuilderBase.link`: the full linker argv. -/
def Builder.linkArgv (b : Builder) (objects : List String) (outfile : String)
    (libpaths libraries extra_link : List String) : List String :=
  [b.linker] ++ b.linker_parameters
    ++ b.linker_out_string outfile
    ++ objects.map (fun o => o ++ b.object_extension)
    ++ libpaths.map (fun l => b.libpath_directive ++ l)
    ++ libraries ++ extra_link

-- ---------------------------------------------------------------------
-- Platform dispatch of `build_plugin`
-- ---------------------------------------------------------------------

/-- The three platform strings `build_plugin` dispatches on. -/
inductive OS where
  | linux
  | win32
  | macosx
deriving DecidableEq

def osString : OS → String
  | .linux => "linux"
  | .win32 => "win32"
  | .macosx => "macosx"

/-- The per-platform settings block chosen by the `if platform == ...`
chain of `build_plugin` (including the mutation of the freshly built
builder's parameter lists). -/
structure PlatCfg where
  builder : Builder
  platformMacrosBase : List String
  pythonLibpath : String
  pythonLibrary : List String
  idaLibpath : String
  idaLib : String
  extra_link_parameters : List String

def platCfg (os : OS) (idasdkdir : String) (ea64 debug : Bool)
    (pyMajor pyMinor : Nat) (execPrefix : String) : PlatCfg :=
  match os with
  | .linux =>
    { builder := { GCCBuilder with
        compiler_parameters := GCCBuilder.compiler_parameters ++ ["-O2"] }
      platformMacrosBase := ["__LINUX__"]
      pythonLibpath := pjoinS execPrefix "lib"
      pythonLibrary := ["-Bdynamic",
        "-lpython" ++ toString pyMajor ++ "." ++ toString pyMinor]
      idaLibpath := pjoinS (pjoinS idasdkdir "lib")
        (if ea64 then "x86_linux_gcc_64" else "x86_linux_gcc_32")
      idaLib := ""
      extra_link_parameters := ["-s"] }
  | .win32 =>
    { builder := { MSVCBuilder with
        compiler_parameters := MSVCBuilder.compiler_parameters
          ++ (if debug then [] else ["-Ox"]) }
      platformMacrosBase := ["__NT__"]
      pythonLibpath := pjoinS execPrefix "libs"
      pythonLibrary := ["python" ++ toString pyMajor ++ toString pyMinor ++ ".lib"]
      idaLibpath := pjoinS (pjoinS idasdkdir "lib")
        (if ea64 then "x86_win_vc_64" else "x86_win_vc_32")
      idaLib := "ida.lib"
      extra_link_parameters := [] }
  | .macosx =>
    { builder := { GCCBuilder with
        linker_parameters := GCCBuilder.linker_parameters ++ ["-dynamiclib"],
        compiler_parameters := GCCBuilder.compiler_parameters ++ ["-O3"] }
      platformMacrosBase := ["__MAC__"]
      pythonLibpath := "."
      pythonLibrary := ["-framework", "Python"]
      idaLibpath := pjoinS (pjoinS idasdkdir "lib")
        (if ea64 then "x86_mac_gcc_64" else "x86_mac_gcc_32")
      idaLib := if ea64 then "-lida64" else "-lida"
      extra_link_parameters := ["-s"] }

/-- The argv of the directors' calling-convention patch step run on win32. -/
def patchArgv : List String := ["python", "patch_directors_cc.py", "-f", "idaapi.h"]

/-- Everything one `build_plugin` invocation determines before running any
external process: the updated `SWIG_OPTIONS` global, the individual argvs,
and the ordered step sequence. -/
structure PluginPlan where
  swig_options : List String
  swig_argv : List String
  compile1 : List String
  compile2 : List String
  link_argv : List String
  steps : List (List String)
deriving DecidableEq

/-- `build_plugin`, as the pure plan of its external invocations.
`swigOptions` is the current value of the mutable global `SWIG_OPTIONS`;
the returned `swig_options` field is its value after this invocation
(the script appends to the global in the win32 branch and in the
hexrays branch, before building `swig_argv`). -/
def build_plugin_plan (os : OS) (idasdkdir plugin_name : String) (ea64 : Bool)
    (with_hexrays debug noEarlyLoad : Bool) (pyMajor pyMinor : Nat)
    (execPrefix pyInclude : String) (swigOptions : List String) : PluginPlan :=
  let ida_include_directory := pjoinS idasdkdir "include"
  let cfg := platCfg os idasdkdir ea64 debug pyMajor pyMinor execPrefix
  -- SWIG_OPTIONS.append("-D__NT__") in the win32 branch
  let swigOptions := swigOptions ++ (if os = .win32 then ["-D__NT__"] else [])
  -- platform_macros mutations, in source order
  let platform_macros := cfg.platformMacrosBase
    ++ (if ea64 then ["__EA64__"] else [])
  -- SWIG_OPTIONS.append('-DWITH_HEXRAYS') / platform_macros.append(...)
  let swigOptions := swigOptions ++ (if with_hexrays then ["-DWITH_HEXRAYS"] else [])
  let platform_macros := platform_macros
    ++ (if with_hexrays then ["WITH_HEXRAYS"] else [])
  let platform_macros := platform_macros ++ ["NDEBUG"]
  let platform_macros := platform_macros
    ++ (if noEarlyLoad then [] else ["PLUGINFIX"])
  let macros := platform_macros.map MTok.bare
  let swig_argv := [SWIG_BIN] ++ swigOptions
    ++ ["-Iswig", "-o", "idaapi.cpp"]
    ++ (if ea64 then ["-D__EA64__"] else [])
    ++ ["-I" ++ ida_include_directory, "idaapi.i"]
  let c1 := cfg.builder.compileArgv "idaapi" [pyInclude, ida_include_directory] macros
  let c2 := cfg.builder.compileArgv "python" [pyInclude, ida_include_directory] macros
  let libs := cfg.pythonLibrary ++ [cfg.idaLib]
  let lnk := cfg.builder.linkArgv ["idaapi", "python"] plugin_name
    [cfg.pythonLibpath, cfg.idaLibpath] libs cfg.extra_link_parameters
  { swig_options := swigOptions
    swig_argv := swig_argv
    compile1 := c1
    compile2 := c2
    link_argv := lnk
    steps := [swig_argv] ++ (if os = .win32 then [patchArgv] else []) ++ [c1, c2, lnk] }

/-- Run a step sequence against an external-process oracle: each argv is
spawned in order; a failing call (''`subprocess.check_call` raises, or the
following `assert res == 0` fires'') aborts the rest.  Returns the
attempted prefix and whether all succeeded. -/
def runSteps (ok : List String → Bool) : List (List String) → List (List String) × Bool
  | [] => ([], true)
  | s :: rest =>
    if ok s then
      let r := runSteps ok rest
      (s :: r.1, r.2)
    else ([s], false)

/-- One executed `build_plugin` invocation: its plan, the argvs actually
attempted, and whether the whole build succeeded. -/
structure PluginExec where
  plan : PluginPlan
  attempted : List (List String)
  success : Bool
deriving DecidableEq

def build_plugin_exec (ok : List String → Bool) (os : OS)
    (idasdkdir plugin_name : String) (ea64 : Bool)
    (with_hexrays debug noEarlyLoad : Bool) (pyMajor pyMinor : Nat)
    (execPrefix pyInclude : String) (swigOptions : List String) : PluginExec :=
  let p := build_plugin_plan os idasdkdir plugin_name ea64 with_hexrays debug
    noEarlyLoad pyMajor pyMinor execPrefix pyInclude swigOptions
  let r := runSteps ok p.steps
  { plan := p, attempted := r.1, success := r.2 }

-- ---------------------------------------------------------------------
-- Distribution packager (`build_distribution`)
-- ---------------------------------------------------------------------

/-- A manifest entry: either a bare relative source path (destination
mirrors the source directory) or a `(source, destination-subdirectory)`
tuple. -/
inductive Entry where
  | simple (p : Path)
  | routed (p : Path) (dest : String)
deriving DecidableEq

/-- The source path of a manifest entry (`f` or `f[0]`). -/
def srcOf : Entry → Path
  | .simple p => p
  | .routed p _ => p

/-- The destination directory computed for an entry in the copy loop:
`os.path.join(distrootdir, f[1])` for tuples; for bare paths, the root
itself when the source has no directory part, else
`os.path.join(distrootdir, srcdir)`. -/
def dstDirOf (root : Path) : Entry → Path
  | .routed _ d => root ++ [d]
  | .simple p => if p.dropLast = [] then root else root ++ p.dropLast

/-- `dstfilepath = os.path.join(dstdir, srcfilename)`. -/
def entryDst (root : Path) (e : Entry) : Path :=
  dstDirOf root e ++ [basenameP (srcOf e)]

/-- The state of the file system and of the zip archives: files with
contents, existing directories, archives (keyed by the distribution
root; the real archive lives at the sibling `<root>.zip`) with their
entry lists. -/
structure DistState where
  files : List (Path × String)
  dirs : List Path
  zips : List (Path × List Path)
deriving DecidableEq

/-- What one `build_distribution` invocation did: the destination paths
copied into the tree, the entry names written into the archive, and the
number of times the archive was closed. -/
structure RunLog where
  copied : List Path
  zipWrites : List Path
  closes : Nat
deriving DecidableEq

/-- `if not os.path.exists(dstdir): os.makedirs(dstdir)`. -/
def mkDstDir (root : Path) (e : Entry) (st : DistState) : DistState :=
  if dstDirOf root e ∈ st.dirs then st
  else { st with dirs := dstDirOf root e :: st.dirs }

/-- `shutil.copyfile` target update. -/
def putFile (p : Path) (c : String) (st : DistState) : DistState :=
  { st with files := (p, c) :: st.files }

/-- `zip.write(dstfilepath)` on the archive keyed `zk`. -/
def zipWriteSt (zk p : Path) (st : DistState) : DistState :=
  { st with zips := (zk, (alookup st.zips zk).getD [] ++ [p]) :: st.zips }

def logStep (p : Path) (log : RunLog) : RunLog :=
  { log with copied := log.copied ++ [p], zipWrites := log.zipWrites ++ [p] }

/-- The `for f in manifest:` copy loop of `build_distribution`.  A missing
source file makes `shutil.copyfile` raise `IOError`, aborting the loop
(and skipping the final `zip.close()`). -/
def distLoop (root zk : Path) :
    List Entry → DistState → RunLog → DistState × RunLog × Option String
  | [], st, log => (st, log, none)
  | e :: rest, st, log =>
    let st1 := mkDstDir root e st
    match alookup st1.files (srcOf e) with
    | none => (st1, log, some "copyfile: missing source")
    | some content =>
      distLoop root zk rest
        (zipWriteSt zk (entryDst root e) (putFile (entryDst root e) content st1))
        (logStep (entryDst root e) log)

/-- `shutil.rmtree(distrootdir)`: removes the directory and everything
under it (the sibling archive file is untouched). -/
def rmtreeF (root : Path) (st : DistState) : DistState :=
  { st with
    files := st.files.filter fun kv => !root.isPrefixOf kv.1
    dirs := st.dirs.filter fun d => !root.isPrefixOf d }

/-- The prelude of `build_distribution`: optional `rmtree`, `makedirs`
when the root is missing, and `zipfile.ZipFile(zippath, nukeold and "w"
or "a")` — mode `"w"` truncates to a fresh archive, mode `"a"` opens the
existing archive or, per `zipfile`'s documented behaviour, creates a
fresh one when the file does not exist. -/
def prepRm (root : Path) (nukeold : Bool) (st : DistState) : DistState :=
  if nukeold ∧ root ∈ st.dirs then rmtreeF root st else st

def prepMk (root : Path) (st : DistState) : DistState :=
  if root ∈ st.dirs then st else { st with dirs := root :: st.dirs }

def prepZip (root : Path) (nukeold : Bool) (st : DistState) : DistState :=
  if nukeold then { st with zips := (root, []) :: st.zips }
  else
    match alookup st.zips root with
    | some _ => st
    | none => { st with zips := (root, []) :: st.zips }

def distPrep (root : Path) (nukeold : Bool) (st : DistState) : DistState :=
  prepZip root nukeold (prepMk root (prepRm root nukeold st))

/-- `build_distribution(manifest, distrootdir, ea64, nukeold)`.  The
`ea64` argument is accepted and ignored, as in the script.  Returns the
new state, the run log and `some msg` when the copy loop raised (in
which case `zip.close()` was never reached). -/
def build_distribution (manifest : List Entry) (root : Path)
    (ea64 nukeold : Bool) (st : DistState) : DistState × RunLog × Option String :=
  let _ := ea64
  let st1 := distPrep root nukeold st
  match distLoop root root manifest st1 ⟨[], [], 0⟩ with
  | (st', log, none) => (st', { log with closes := log.closes + 1 }, none)
  | (st', log, some msg) => (st', log, some msg)

-- ---------------------------------------------------------------------
-- Pipeline driver (`detect_platform`, `build_binary_package`, `main`)
-- ---------------------------------------------------------------------

/-- `detect_platform`: maps `platform.system()` to the platform string
and plugin file name, or `none` for the `sys.exit(-1)` branch. -/
def detect_platform (system : String) (ea64 : Bool) : Option (OS × String) :=
  if system = "Windows" ∨ system = "Microsoft" then
    some (.win32, if ea64 then "python.p64" else "python.plw")
  else if system = "Linux" then
    some (.linux, if ea64 then "python.plx64" else "python.plx")
  else if system = "Darwin" then
    some (.macosx, if ea64 then "python.pmc64" else "python.pmc")
  else none

/-- `BINDIST_MANIFEST` (paths as component lists). -/
def BINDIST_MANIFEST : List Entry :=
  [ .simple ["README.md"],
    .simple ["COPYING.txt"],
    .simple ["CHANGES.txt"],
    .simple ["AUTHORS.txt"],
    .simple ["STATUS.txt"],
    .simple ["python.cfg"],
    .simple ["docs", "notes.txt"],
    .simple ["examples", "chooser.py"],
    .simple ["examples", "colours.py"],
    .simple ["examples", "ex_idphook_asm.py"],
    .simple ["examples", "ex_uirequests.py"],
    .simple ["examples", "debughook.py"],
    .simple ["examples", "ex_cli.py"],
    .simple ["examples", "ex1.idc"],
    .simple ["examples", "ex_custdata.py"],
    .simple ["examples", "ex1_idaapi.py"],
    .simple ["examples", "ex1_idautils.py"],
    .simple ["examples", "hotkey.py"],
    .simple ["examples", "structure.py"],
    .simple ["examples", "ex_gdl_qflow_chart.py"],
    .simple ["examples", "ex_strings.py"],
    .simple ["examples", "ex_actions.py"],
    .simple ["examples", "ex_func_chooser.py"],
    .simple ["examples", "ex_choose2.py"],
    .simple ["examples", "ex_debug_names.py"],
    .simple ["examples", "ex_graph.py"],
    .simple ["examples", "ex_hotkey.py"],
    .simple ["examples", "ex_patch.py"],
    .simple ["examples", "ex_expr.py"],
    .simple ["examples", "ex_timer.py"],
    .simple ["examples", "ex_dbg.py"],
    .simple ["examples", "ex_custview.py"],
    .simple ["examples", "ex_prefix_plugin.py"],
    .simple ["examples", "ex_pyside.py"],
    .simple ["examples", "ex_pyqt.py"],
    .simple ["examples", "ex_askusingform.py"],
    .simple ["examples", "ex_uihook.py"],
    .simple ["examples", "ex_idphook_asm.py"],
    .simple ["examples", "ex_imports.py"] ]

/-- The `(x, "python")` support-module entries of `build_binary_package`. -/
def pymodEntries : List Entry :=
  [ .routed ["python", "init.py"] "python",
    .routed ["python", "idc.py"] "python",
    .routed ["python", "idautils.py"] "python",
    .routed ["idaapi.py"] "python" ]

/-- The `BINDISTDIR` name:
`idapython-<maj>.<min>.<patch>_ida<maj>.<min>_py<maj>.<min>_<platform>`. -/
def bindistdirName (pyMajor pyMinor : Nat) (platform_string : String) : String :=
  "idapython-" ++ toString VERSION_MAJOR ++ "." ++ toString VERSION_MINOR
    ++ "." ++ toString VERSION_PATCH
    ++ "_ida" ++ toString IDA_MAJOR_VERSION ++ "." ++ toString IDA_MINOR_VERSION
    ++ "_py" ++ toString pyMajor ++ "." ++ toString pyMinor
    ++ "_" ++ platform_string

/-- The `binmanifest` assembled by `build_binary_package`. -/
def binManifest (plugin_name : String) (ea64 nukeold : Bool) : List Entry :=
  (if nukeold then BINDIST_MANIFEST else [])
    ++ (if !ea64 || nukeold then pymodEntries else [])
    ++ [.routed [plugin_name] "plugins"]

/-- The outcome of one `build_binary_package` invocation. -/
structure PkgResult where
  os : OS
  plugin_name : String
  distdir : String
  pexec : PluginExec
  manifest : List Entry
  nuke : Bool
  /-- `none` when the plugin build aborted before packaging. -/
  dist : Option (RunLog × Option String)
  stOut : DistState
  swig_options : List String

/-- `build_binary_package(ea64, nukeold)`.  A failed plugin build
(`assert`/`check_call` exception) aborts before `build_distribution` is
reached. -/
def build_binary_package (system : String) (ea64 nukeold : Bool)
    (with_hexrays debug noEarlyLoad : Bool) (pyMajor pyMinor : Nat)
    (execPrefix pyInclude idasdk : String) (ok : List String → Bool)
    (swigOptions : List String) (st : DistState) : Option PkgResult :=
  match detect_platform system ea64 with
  | none => none
  | some (os, plugin_name) =>
    let distdir := bindistdirName pyMajor pyMinor (osString os)
    let ex := build_plugin_exec ok os idasdk plugin_name ea64 with_hexrays debug
      noEarlyLoad pyMajor pyMinor execPrefix pyInclude swigOptions
    let manifest := binManifest plugin_name ea64 nukeold
    if ex.success then
      match build_distribution manifest [distdir] ea64 nukeold st with
      | (st', log, err) =>
        some { os := os, plugin_name := plugin_name, distdir := distdir,
               pexec := ex, manifest := manifest, nuke := nukeold,
               dist := some (log, err), stOut := st',
               swig_options := ex.plan.swig_options }
    else
      some { os := os, plugin_name := plugin_name, distdir := distdir,
             pexec := ex, manifest := manifest, nuke := nukeold,
             dist := none, stOut := st,
             swig_options := ex.plan.swig_options }

/-- Did this pass complete fully (plugin built and every manifest entry
copied and archived)? -/
def passOk (r : PkgResult) : Bool :=
  r.pexec.success && (match r.dist with
    | some (_, none) => true
    | _ => false)

/-- The binary-package part of `main()`: always build the 32-bit package
with `nukeold=True`; when `--ea64` was given and the first pass succeeded,
rebuild with `ea64=True, nukeold=False`, threading the `SWIG_OPTIONS`
global and the file-system state.  An aborted first pass carries no
second pass (the process died). -/
def driver_main (system : String) (ea64flag : Bool)
    (with_hexrays debug noEarlyLoad : Bool) (pyMajor pyMinor : Nat)
    (execPrefix pyInclude idasdk : String) (ok : List String → Bool)
    (st : DistState) : Option (PkgResult × Option PkgResult) :=
  match build_binary_package system false true with_hexrays debug noEarlyLoad
    pyMajor pyMinor execPrefix pyInclude idasdk ok SWIG_OPTIONS_init st with
  | none => none
  | some r1 =>
    if passOk r1 && ea64flag then
      match build_binary_package system true false with_hexrays debug noEarlyLoad
        pyMajor pyMinor execPrefix pyInclude idasdk ok r1.swig_options r1.stOut with
      | none => none
      | some r2 => some (r1, some r2)
    else some (r1, none)

-- ---------------------------------------------------------------------
-- Helper lemmas about the packager state machine
-- ---------------------------------------------------------------------

@[simp] theorem mkDstDir_files (root : Path) (e : Entry) (st : DistState) :
    (mkDstDir root e st).files = st.files := by
  unfold mkDstDir; split <;> rfl

@[simp] theorem mkDstDir_zips (root : Path) (e : Entry) (st : DistState) :
    (mkDstDir root e st).zips = st.zips := by
  unfold mkDstDir; split <;> rfl

theorem mkDstDir_dirs_mem {d : Path} (root : Path) (e : Entry) (st : DistState)
    (h : d ∈ st.dirs) : d ∈ (mkDstDir root e st).dirs := by
  unfold mkDstDir; split
  · exact h
  · exact List.mem_cons_of_mem _ h

@[simp] theorem putFile_files (p : Path) (c : String) (st : DistState) :
    (putFile p c st).files = (p, c) :: st.files := rfl

@[simp] theorem putFile_dirs (p : Path) (c : String) (st : DistState) :
    (putFile p c st).dirs = st.dirs := rfl

@[simp] theorem putFile_zips (p : Path) (c : String) (st : DistState) :
    (putFile p c st).zips = st.zips := rfl

@[simp] theorem zipWriteSt_files (zk p : Path) (st : DistState) :
    (zipWriteSt zk p st).files = st.files := rfl

@[simp] theorem zipWriteSt_dirs (zk p : Path) (st : DistState) :
    (zipWriteSt zk p st).dirs = st.dirs := rfl

@[simp] theorem zipWriteSt_zips (zk p : Path) (st : DistState) :
    (zipWriteSt zk p st).zips
      = (zk, (alookup st.zips zk).getD [] ++ [p]) :: st.zips := rfl

@[simp] theorem logStep_copied (p : Path) (log : RunLog) :
    (logStep p log).copied = log.copied ++ [p] := rfl

@[simp] theorem logStep_zipWrites (p : Path) (log : RunLog) :
    (logStep p log).zipWrites = log.zipWrites ++ [p] := rfl

@[simp] theorem logStep_closes (p : Path) (log : RunLog) :
    (logStep p log).closes = log.closes := rfl

/-- Full characterization of a copy loop that ran to completion: the log
records exactly the destination paths of the manifest; files outside the
destination set are untouched; all destination files exist afterwards;
the opened archive's entry list got exactly the destination paths
appended. -/
theorem distLoop_spec (root zk : Path) (m : List Entry) :
    ∀ (st : DistState) (log : RunLog) (st' : DistState) (log' : RunLog),
    distLoop root zk m st log = (st', log', none) →
    log'.copied = log.copied ++ m.map (entryDst root) ∧
    log'.zipWrites = log.zipWrites ++ m.map (entryDst root) ∧
    log'.closes = log.closes ∧
    (∀ p, p ∉ m.map (entryDst root) → alookup st'.files p = alookup st.files p) ∧
    (∀ p ∈ m.map (entryDst root), (alookup st'.files p).isSome) ∧
    (∀ l, alookup st.zips zk = some l →
      alookup st'.zips zk = some (l ++ m.map (entryDst root))) := by
  induction m with
  | nil =>
    intro st log st' log' h
    simp only [distLoop, Prod.mk.injEq] at h
    obtain ⟨h1, h2, -⟩ := h
    subst h1; subst h2
    simp
  | cons e rest ih =>
    intro st log st' log' h
    cases hc : alookup (mkDstDir root e st).files (srcOf e) with
    | none =>
      simp only [distLoop, hc, Prod.mk.injEq] at h
      exact absurd h.2.2 (by simp)
    | some c =>
      simp only [distLoop, hc] at h
      obtain ⟨hcop, hzw, hcl, hframe, hsome, hzip⟩ := ih _ _ _ _ h
      have hfiles2 :
          (zipWriteSt zk (entryDst root e)
            (putFile (entryDst root e) c (mkDstDir root e st))).files
          = (entryDst root e, c) :: st.files := by simp
      refine ⟨?_, ?_, ?_, ?_, ?_, ?_⟩
      · simp only [hcop, logStep_copied, List.map_cons, List.append_assoc,
          List.singleton_append]
      · simp only [hzw, logStep_zipWrites, List.map_cons, List.append_assoc,
          List.singleton_append]
      · simpa using hcl
      · intro p hp
        simp only [List.map_cons, List.mem_cons, not_or] at hp
        rw [hframe p hp.2, hfiles2, alookup_cons, if_neg hp.1]
      · intro p hp
        by_cases hr : p ∈ rest.map (entryDst root)
        · exact hsome p hr
        · simp only [List.map_cons, List.mem_cons] at hp
          rcases hp with hp | hp
          · rw [hframe p hr, hfiles2, alookup_cons, if_pos hp]
            rfl
          · exact absurd hp hr
      · intro l hl
        have hz2 : alookup (zipWriteSt zk (entryDst root e)
            (putFile (entryDst root e) c (mkDstDir root e st))).zips zk
            = some (l ++ [entryDst root e]) := by
          simp [hl, alookup_cons]
        have := hzip (l ++ [entryDst root e]) hz2
        simpa [List.append_assoc] using this

/-- The copy loop never removes directories, never makes an existing
file or archive disappear, and never touches the close counter — whether
or not it aborts on a missing source. -/
theorem distLoop_mono (root zk : Path) (m : List Entry) :
    ∀ (st : DistState) (log : RunLog) (st' : DistState) (log' : RunLog)
      (err : Option String),
    distLoop root zk m st log = (st', log', err) →
    (∀ d ∈ st.dirs, d ∈ st'.dirs) ∧
    (∀ p, (alookup st.files p).isSome → (alookup st'.files p).isSome) ∧
    (∀ k, (alookup st.zips k).isSome → (alookup st'.zips k).isSome) ∧
    log'.closes = log.closes := by
  induction m with
  | nil =>
    intro st log st' log' err h
    simp only [distLoop, Prod.mk.injEq] at h
    obtain ⟨h1, h2, -⟩ := h
    subst h1; subst h2
    exact ⟨fun _ hd => hd, fun _ hp => hp, fun _ hk => hk, rfl⟩
  | cons e rest ih =>
    intro st log st' log' err h
    cases hc : alookup (mkDstDir root e st).files (srcOf e) with
    | none =>
      simp only [distLoop, hc, Prod.mk.injEq] at h
      obtain ⟨h1, h2, -⟩ := h
      subst h1; subst h2
      refine ⟨fun d hd => mkDstDir_dirs_mem root e st hd, ?_, ?_, rfl⟩
      · intro p hp; simpa using hp
      · intro k hk; simpa using hk
    | some c =>
      simp only [distLoop, hc] at h
      obtain ⟨hdirs, hfiles, hzips, hcl⟩ := ih _ _ _ _ _ h
      refine ⟨?_, ?_, ?_, by simpa using hcl⟩
      · intro d hd
        refine hdirs d ?_
        simp only [zipWriteSt_dirs, putFile_dirs]
        exact mkDstDir_dirs_mem root e st hd
      · intro p hp
        refine hfiles p ?_
        simp only [zipWriteSt_files, putFile_files, alookup_cons]
        split
        · rfl
        · simpa using hp
      · intro k hk
        refine hzips k ?_
        simp only [zipWriteSt_zips, putFile_zips, mkDstDir_zips, alookup_cons]
        split
        · rfl
        · exact hk

@[simp] theorem prepRm_false (root : Path) (st : DistState) :
    prepRm root false st = st := by
  simp [prepRm]

theorem prepRm_true_mem (root : Path) (st : DistState) (h : root ∈ st.dirs) :
    prepRm root true st = rmtreeF root st := by
  simp [prepRm, h]

theorem prepMk_of_mem (root : Path) (st : DistState) (h : root ∈ st.dirs) :
    prepMk root st = st := by
  simp [prepMk, h]

theorem prepMk_root_mem (root : Path) (st : DistState) :
    root ∈ (prepMk root st).dirs := by
  unfold prepMk; split
  · assumption
  · exact List.mem_cons_self _ _

@[simp] theorem prepMk_files (root : Path) (st : DistState) :
    (prepMk root st).files = st.files := by
  unfold prepMk; split <;> rfl

@[simp] theorem prepMk_zips (root : Path) (st : DistState) :
    (prepMk root st).zips = st.zips := by
  unfold prepMk; split <;> rfl

@[simp] theorem prepZip_files (root : Path) (n : Bool) (st : DistState) :
    (prepZip root n st).files = st.files := by
  unfold prepZip; split
  · rfl
  · split <;> rfl

@[simp] theorem prepZip_dirs (root : Path) (n : Bool) (st : DistState) :
    (prepZip root n st).dirs = st.dirs := by
  unfold prepZip; split
  · rfl
  · split <;> rfl

theorem prepZip_true_zip (root : Path) (st : DistState) :
    alookup (prepZip root true st).zips root = some [] := by
  simp [prepZip, alookup_cons]

theorem prepZip_false_of_some (root : Path) (st : DistState)
    (h : (alookup st.zips root).isSome) : prepZip root false st = st := by
  unfold prepZip
  cases hm : alookup st.zips root with
  | none => rw [hm] at h; simp at h
  | some l => simp [hm]

theorem prepZip_zip_isSome (root : Path) (n : Bool) (st : DistState) :
    (alookup (prepZip root n st).zips root).isSome := by
  unfold prepZip
  cases n with
  | true => simp [alookup_cons]
  | false =>
    cases hm : alookup st.zips root with
    | none => simp [hm, alookup_cons]
    | some l => simp [hm]

theorem distPrep_root_mem (root : Path) (n : Bool) (st : DistState) :
    root ∈ (distPrep root n st).dirs := by
  unfold distPrep
  rw [prepZip_dirs]
  exact prepMk_root_mem _ _

theorem distPrep_zip_isSome (root : Path) (n : Bool) (st : DistState) :
    (alookup (distPrep root n st).zips root).isSome :=
  prepZip_zip_isSome _ _ _

theorem distPrep_append_id (root : Path) (st : DistState)
    (h1 : root ∈ st.dirs) (h2 : (alookup st.zips root).isSome) :
    distPrep root false st = st := by
  unfold distPrep
  rw [prepRm_false, prepMk_of_mem _ _ h1, prepZip_false_of_some _ _ h2]

theorem distPrep_recreate_zip (root : Path) (st : DistState) :
    alookup (distPrep root true st).zips root = some [] := by
  unfold distPrep
  exact prepZip_true_zip _ _

/-- After a recreate prelude on a pre-existing root, the surviving files
are exactly the old files outside the removed tree. -/
theorem distPrep_recreate_files (root : Path) (st : DistState)
    (h : root ∈ st.dirs) :
    (distPrep root true st).files
      = st.files.filter fun kv => !root.isPrefixOf kv.1 := by
  unfold distPrep
  rw [prepZip_files, prepMk_files, prepRm_true_mem _ _ h]
  rfl

theorem isPrefixOf_true_of (root p : Path) (hp : root <+: p) :
    root.isPrefixOf p = true :=
  List.isPrefixOf_iff_prefix.2 hp

theorem alookup_rm_none {α : Type} (root p : Path) (hp : root <+: p) :
    ∀ l : List (Path × α),
    alookup (l.filter fun kv => !root.isPrefixOf kv.1) p = none := by
  intro l
  induction l with
  | nil => rfl
  | cons kv l ih =>
    rw [List.filter_cons]
    cases hk : root.isPrefixOf kv.1 with
    | true => simpa [hk] using ih
    | false =>
      simp only [hk, Bool.not_false, if_pos]
      rw [alookup_cons]
      split
      · rename_i hpk
        subst hpk
        rw [isPrefixOf_true_of root _ hp] at hk
        cases hk
      · exact ih

/-- Every destination path computed by the copy loop lies under the
distribution root. -/
theorem entryDst_under_root (root : Path) (e : Entry) : root <+: entryDst root e := by
  cases e with
  | routed p d =>
    exact ⟨[d, basenameP p], by simp [entryDst, dstDirOf, srcOf]⟩
  | simple p =>
    by_cases hd : p.dropLast = []
    · exact ⟨[basenameP p], by simp [entryDst, dstDirOf, srcOf, hd]⟩
    · exact ⟨p.dropLast ++ [basenameP p], by simp [entryDst, dstDirOf, srcOf, hd]⟩

/-- Destructuring a completed `build_distribution` run into its copy
loop: the resulting log is the loop's log with one final archive close
added. -/
theorem build_distribution_success (m : List Entry) (root : Path) (e n : Bool)
    (st st' : DistState) (log : RunLog)
    (h : build_distribution m root e n st = (st', log, none)) :
    ∃ log1, distLoop root root m (distPrep root n st) ⟨[], [], 0⟩ = (st', log1, none) ∧
      log = { log1 with closes := log1.closes + 1 } := by
  cases hL : distLoop root root m (distPrep root n st) ⟨[], [], 0⟩ with
  | mk st1 r =>
    obtain ⟨log1, err⟩ := r
    cases err with
    | none =>
      simp only [build_distribution, hL, Prod.mk.injEq] at h
      obtain ⟨h1, h2, -⟩ := h
      subst h1
      exact ⟨log1, rfl, h2.symm⟩
    | some msg =>
      simp only [build_distribution, hL, Prod.mk.injEq] at h
      exact absurd h.2.2 (by simp)

/-- Destructuring an aborted `build_distribution` run: the outcome is
the loop's own, with no close performed. -/
theorem build_distribution_fail (m : List Entry) (root : Path) (e n : Bool)
    (st st' : DistState) (log : RunLog) (msg : String)
    (h : build_distribution m root e n st = (st', log, some msg)) :
    distLoop root root m (distPrep root n st) ⟨[], [], 0⟩ = (st', log, some msg) := by
  cases hL : distLoop root root m (distPrep root n st) ⟨[], [], 0⟩ with
  | mk st1 r =>
    obtain ⟨log1, err⟩ := r
    cases err with
    | none =>
      simp only [build_distribution, hL, Prod.mk.injEq] at h
      exact absurd h.2.2 (by simp)
    | some msg2 =>
      simp only [build_distribution, hL, Prod.mk.injEq] at h
      obtain ⟨h1, h2, h3⟩ := h
      subst h1
      subst h2
      rw [h3]

-- ---------------------------------------------------------------------
-- Claim theorems: the distribution packager
-- ---------------------------------------------------------------------

/-- A small file-system state used by concrete witnesses: the two
source files of the spec's packaging scenario exist, nothing else. -/
def exampleState : DistState :=
  { files := [(["README.md"], "readme"), (["plugin.bin"], "plugin")]
    dirs := []
    zips := [] }

/-- C2: after a completed packaging run, the list of files the run
placed in the target tree and the list of entries it wrote into the
archive coincide. -/
theorem C2_dir_archive_sync (m : List Entry) (root : Path) (e n : Bool)
    (st st' : DistState) (log : RunLog)
    (h : build_distribution m root e n st = (st', log, none)) :
    log.copied = log.zipWrites := by
  obtain ⟨log1, hL, rfl⟩ := build_distribution_success m root e n st st' log h
  obtain ⟨hc, hz, -, -, -, -⟩ := distLoop_spec root root m _ _ _ _ hL
  show log1.copied = log1.zipWrites
  rw [hc, hz]

/-- The spec's packaging scenario, run in recreate mode. -/
def specRun : DistState × RunLog × Option String :=
  build_distribution [Entry.simple ["README.md"], Entry.routed ["plugin.bin"] "plugins"]
    ["out"] false true exampleState

/-- Witness for C2 on the spec's packaging scenario. -/
theorem C2_dir_archive_sync_witness :
    specRun.2.1.copied = specRun.2.1.zipWrites :=
  C2_dir_archive_sync
    [Entry.simple ["README.md"], Entry.routed ["plugin.bin"] "plugins"]
    ["out"] false true exampleState specRun.1 specRun.2.1 (by decide)

/-- C3 counterexample: a run whose copy step fails (missing source)
returns with the archive closed zero times, not once. -/
theorem C3_counterexample :
    (build_distribution [Entry.simple ["README.md"]] ["out"] false true
      (⟨[], [], []⟩ : DistState)).2.1.closes = 0 ∧
    (build_distribution [Entry.simple ["README.md"]] ["out"] false true
      (⟨[], [], []⟩ : DistState)).2.2 ≠ none := by decide

/-- C3 amended: the archive is closed exactly once, after all manifest
entries are processed, on every invocation that completes; when a copy
step fails, the exception propagates and `build_distribution` performs
no close at all. -/
theorem C3_close_semantics (m : List Entry) (root : Path) (e n : Bool)
    (st st' : DistState) (log : RunLog) (err : Option String)
    (h : build_distribution m root e n st = (st', log, err)) :
    (err = none → log.closes = 1 ∧ log.copied = m.map (entryDst root)) ∧
    (err ≠ none → log.closes = 0) := by
  cases err with
  | none =>
    obtain ⟨log1, hL, rfl⟩ := build_distribution_success m root e n st st' log h
    obtain ⟨hc, -, hcl, -, -, -⟩ := distLoop_spec root root m _ _ _ _ hL
    refine ⟨fun _ => ⟨?_, ?_⟩, fun hne => absurd rfl hne⟩
    · show log1.closes + 1 = 1
      rw [hcl]
    · show log1.copied = m.map (entryDst root)
      simpa using hc
  | some msg =>
    have hL := build_distribution_fail m root e n st st' log msg h
    obtain ⟨-, -, -, hcl⟩ := distLoop_mono root root m _ _ _ _ _ hL
    refine ⟨fun hno => ?_, fun _ => hcl⟩
    exact absurd hno (by simp)

/-- Witness for C3's amended claim: a completed run closes once and
copies every manifest entry. -/
theorem C3_close_semantics_witness :
    specRun.2.1.closes = 1 ∧
    specRun.2.1.copied = [["out", "README.md"], ["out", "plugins", "plugin.bin"]] := by
  have h := (C3_close_semantics
    [Entry.simple ["README.md"], Entry.routed ["plugin.bin"] "plugins"]
    ["out"] false true exampleState specRun.1 specRun.2.1 specRun.2.2
    (by decide)).1 (by decide)
  exact ⟨h.1, h.2.trans (by decide)⟩

/-- An append-mode run against a target whose directory and archive do
not exist (``exampleState`` has neither). -/
def c4run : DistState × RunLog × Option String :=
  build_distribution [Entry.simple ["README.md"]] ["out"] false false exampleState

/-- C4 counterexample: an append-mode run against a target whose
directory and archive do not exist succeeds and creates both, instead
of failing. -/
theorem C4_counterexample :
    c4run.2.2 = none ∧
    ["out"] ∈ c4run.1.dirs ∧
    alookup c4run.1.zips ["out"] = some [["out", "README.md"]] := by decide

/-- C4 amended: in append mode a missing target directory is created by
`os.makedirs` and a missing archive is created fresh by
`zipfile.ZipFile(..., "a")`; the invocation does not fail on their
absence. -/
theorem C4_append_creates (m : List Entry) (root : Path) (e : Bool)
    (st st' : DistState) (log : RunLog) (err : Option String)
    (hd : root ∉ st.dirs) (hz : alookup st.zips root = none)
    (h : build_distribution m root e false st = (st', log, err)) :
    root ∈ st'.dirs ∧ (alookup st'.zips root).isSome := by
  cases err with
  | none =>
    obtain ⟨log1, hL, -⟩ := build_distribution_success m root e false st st' log h
    obtain ⟨hdirs, -, hzips, -⟩ := distLoop_mono root root m _ _ _ _ _ hL
    exact ⟨hdirs root (distPrep_root_mem root false st),
      hzips root (distPrep_zip_isSome root false st)⟩
  | some msg =>
    have hL := build_distribution_fail m root e false st st' log msg h
    obtain ⟨hdirs, -, hzips, -⟩ := distLoop_mono root root m _ _ _ _ _ hL
    exact ⟨hdirs root (distPrep_root_mem root false st),
      hzips root (distPrep_zip_isSome root false st)⟩

/-- Witness for C4's amended claim on a concrete missing target. -/
theorem C4_append_creates_witness :
    ["out"] ∈ c4run.1.dirs ∧ (alookup c4run.1.zips ["out"]).isSome :=
  C4_append_creates [Entry.simple ["README.md"]] ["out"] false exampleState
    c4run.1 c4run.2.1 c4run.2.2 (by decide) (by decide) (by decide)

/-- C5: a recreate-mode run with manifest A followed by an append-mode
run with manifest B against the same target yields an archive holding
exactly A's then B's entries, a directory tree holding (under the root)
exactly the union of the two destination sets, and leaves every file
placed by the A pass unmodified. -/
theorem C5_append_union (A B : List Entry) (root : Path)
    (st0 st1 st2 : DistState) (ea eb : Bool) (log1 log2 : RunLog)
    (hroot : root ∈ st0.dirs)
    (hdisj : ∀ p ∈ A.map (entryDst root), p ∉ B.map (entryDst root))
    (h1 : build_distribution A root ea true st0 = (st1, log1, none))
    (h2 : build_distribution B root eb false st1 = (st2, log2, none)) :
    alookup st2.zips root
      = some (A.map (entryDst root) ++ B.map (entryDst root)) ∧
    (∀ p, root <+: p →
      ((alookup st2.files p).isSome
        ↔ p ∈ A.map (entryDst root) ++ B.map (entryDst root))) ∧
    (∀ p ∈ A.map (entryDst root), alookup st2.files p = alookup st1.files p) := by
  obtain ⟨l1, hL1, -⟩ := build_distribution_success A root ea true st0 st1 log1 h1
  obtain ⟨-, -, -, hframeA, hsomeA, hzipA⟩ := distLoop_spec root root A _ _ _ _ hL1
  have hmonoA := distLoop_mono root root A _ _ _ _ _ hL1
  -- state after the A pass
  have hzipsSt1 : alookup st1.zips root = some (A.map (entryDst root)) := by
    simpa using hzipA [] (distPrep_recreate_zip root st0)
  have hdirsSt1 : root ∈ st1.dirs :=
    hmonoA.1 root (distPrep_root_mem root true st0)
  -- the B prelude is the identity on that state
  have hprepB : distPrep root false st1 = st1 :=
    distPrep_append_id root st1 hdirsSt1 (by rw [hzipsSt1]; rfl)
  obtain ⟨l2, hL2, -⟩ := build_distribution_success B root eb false st1 st2 log2 h2
  rw [hprepB] at hL2
  obtain ⟨-, -, -, hframeB, hsomeB, hzipB⟩ := distLoop_spec root root B _ _ _ _ hL2
  have hmonoB := distLoop_mono root root B _ _ _ _ _ hL2
  refine ⟨hzipB _ hzipsSt1, ?_, fun p hp => hframeB p (hdisj p hp)⟩
  intro p hpre
  constructor
  · intro hs
    by_contra hnot
    simp only [List.mem_append, not_or] at hnot
    rw [hframeB p hnot.2, hframeA p hnot.1,
      distPrep_recreate_files root st0 hroot,
      alookup_rm_none root p hpre st0.files] at hs
    cases hs
  · intro hm
    rcases List.mem_append.1 hm with hA | hB
    · exact hmonoB.2.1 p (hsomeA p hA)
    · exact hsomeB p hB

/-- Two-pass file-system state used by the C5 witness. -/
def twoPassState : DistState :=
  { files := [(["a.txt"], "A"), (["b.txt"], "B")]
    dirs := [["out"]]
    zips := [] }

/-- The two passes of the C5 witness: recreate with manifest A, then
append with manifest B. -/
def c5runA : DistState × RunLog × Option String :=
  build_distribution [Entry.simple ["a.txt"]] ["out"] false true twoPassState

def c5runB : DistState × RunLog × Option String :=
  build_distribution [Entry.simple ["b.txt"]] ["out"] true false c5runA.1

/-- Witness for C5 on a concrete recreate-then-append pair of runs. -/
theorem C5_append_union_witness :
    alookup c5runB.1.zips ["out"]
    = some ([Entry.simple ["a.txt"]].map (entryDst ["out"])
        ++ [Entry.simple ["b.txt"]].map (entryDst ["out"])) :=
  (C5_append_union [Entry.simple ["a.txt"]] [Entry.simple ["b.txt"]] ["out"]
    twoPassState c5runA.1 c5runB.1 false true c5runA.2.1 c5runB.2.1
    (by decide) (by decide) (by decide) (by decide)).1

/-- C10: a routed manifest entry `(source, destsubdir)` is placed at
`root/destsubdir/basename(source)` — the source's directory components
are discarded, so routed entries sharing a basename and a destination
subdirectory collide on one destination file. -/
theorem C10_routed_destination :
    (∀ (root p : Path) (d : String),
      entryDst root (.routed p d) = root ++ [d, basenameP p]) ∧
    (∀ (root p1 p2 : Path) (d : String), basenameP p1 = basenameP p2 →
      entryDst root (.routed p1 d) = entryDst root (.routed p2 d)) ∧
    (∀ (m : List Entry) (root : Path) (e n : Bool) (st st' : DistState)
      (log : RunLog),
      build_distribution m root e n st = (st', log, none) →
      log.copied = m.map (entryDst root)) := by
  refine ⟨?_, ?_, ?_⟩
  · intro root p d
    simp [entryDst, dstDirOf, srcOf]
  · intro root p1 p2 d h
    simp [entryDst, dstDirOf, srcOf, h]
  · intro m root e n st st' log h
    obtain ⟨log1, hL, rfl⟩ := build_distribution_success m root e n st st' log h
    obtain ⟨hc, -, -, -, -, -⟩ := distLoop_spec root root m _ _ _ _ hL
    simpa using hc

/-- A run packaging one routed entry, used by the C10 witness. -/
def c10run : DistState × RunLog × Option String :=
  build_distribution [Entry.routed ["plugin.bin"] "plugins"] ["out"] false true
    exampleState

/-- Witness for C10: two routed entries differing only in source
directory collide, and a concrete run copies to the routed path. -/
theorem C10_routed_destination_witness :
    entryDst ["out"] (.routed ["python", "idc.py"] "python")
      = entryDst ["out"] (.routed ["other", "idc.py"] "python") ∧
    c10run.2.1.copied = [["out", "plugins", "plugin.bin"]] := by
  refine ⟨C10_routed_destination.2.1 ["out"] ["python", "idc.py"]
    ["other", "idc.py"] "python" (by decide), ?_⟩
  exact (C10_routed_destination.2.2 [Entry.routed ["plugin.bin"] "plugins"]
    ["out"] false true exampleState c10run.1 c10run.2.1
    (by decide)).trans (by decide)

-- ---------------------------------------------------------------------
-- Claim theorems: the plugin build and the driver
-- ---------------------------------------------------------------------

/-- A concrete Linux plugin build plan (fresh `SWIG_OPTIONS`, no
feature flags), in the 32- or 64-bit variant. -/
def linuxPlan (ea64 : Bool) : PluginPlan :=
  build_plugin_plan .linux "idasdk" (if ea64 then "python.plx64" else "python.plx")
    ea64 false false false 2 7 "/usr" "/usr/include/python2.7" SWIG_OPTIONS_init

/-- C6: on Linux with the 64-bit flag, `__EA64__` reaches the SWIG
invocation and both compile invocations, and the link step uses the
64-bit SDK library subdirectory; without the flag the macro appears in
none of them and the 32-bit subdirectory is used. -/
theorem C6_ea64_threading :
    ("-D__EA64__" ∈ (linuxPlan true).swig_argv ∧
     "-D__EA64__" ∈ (linuxPlan true).compile1 ∧
     "-D__EA64__" ∈ (linuxPlan true).compile2 ∧
     "-Lidasdk/lib/x86_linux_gcc_64" ∈ (linuxPlan true).link_argv) ∧
    ("-D__EA64__" ∉ (linuxPlan false).swig_argv ∧
     "-D__EA64__" ∉ (linuxPlan false).compile1 ∧
     "-D__EA64__" ∉ (linuxPlan false).compile2 ∧
     "-Lidasdk/lib/x86_linux_gcc_32" ∈ (linuxPlan false).link_argv ∧
     "-Lidasdk/lib/x86_linux_gcc_64" ∉ (linuxPlan false).link_argv) := by decide

/-- A plugin build executed against an all-succeeding process oracle. -/
def execAllOk (os : OS) (plugin_name : String) (e hx d n : Bool) : PluginExec :=
  build_plugin_exec (fun _ => true) os "idasdk" plugin_name e hx d n 2 7
    "/usr" "/usr/include/python2.7" SWIG_OPTIONS_init

/-- C8: the calling-convention patch step runs exactly once per win32
plugin build, after interface generation and before either compile
step, and never runs for linux or macosx. -/
theorem C8_patch_step (e hx d n : Bool) :
    (execAllOk .win32 "python.plw" e hx d n).attempted
      = [(execAllOk .win32 "python.plw" e hx d n).plan.swig_argv, patchArgv,
         (execAllOk .win32 "python.plw" e hx d n).plan.compile1,
         (execAllOk .win32 "python.plw" e hx d n).plan.compile2,
         (execAllOk .win32 "python.plw" e hx d n).plan.link_argv] ∧
    (execAllOk .win32 "python.plw" e hx d n).attempted.count patchArgv = 1 ∧
    patchArgv ∉ (execAllOk .linux "python.plx" e hx d n).attempted ∧
    patchArgv ∉ (execAllOk .macosx "python.pmc" e hx d n).attempted := by
  cases e <;> cases hx <;> cases d <;> cases n <;> decide

/-- The step list of every plan starts with the SWIG invocation. -/
theorem plan_steps_head (os : OS) (sdk pn : String) (e hx d n : Bool)
    (pM pN : Nat) (ep pi : String) (opts : List String) :
    (build_plugin_plan os sdk pn e hx d n pM pN ep pi opts).steps
      = (build_plugin_plan os sdk pn e hx d n pM pN ep pi opts).swig_argv
        :: ((if os = .win32 then [patchArgv] else [])
          ++ [(build_plugin_plan os sdk pn e hx d n pM pN ep pi opts).compile1,
              (build_plugin_plan os sdk pn e hx d n pM pN ep pi opts).compile2,
              (build_plugin_plan os sdk pn e hx d n pM pN ep pi opts).link_argv]) := by
  cases os <;> rfl

theorem runSteps_fail_head (ok : List String → Bool) (s : List String)
    (rest : List (List String)) (h : ok s = false) :
    runSteps ok (s :: rest) = ([s], false) := by
  simp [runSteps, h]

/-- A failing SWIG step stops a plugin build after that single attempt. -/
theorem build_plugin_exec_swig_fail (ok : List String → Bool) (os : OS)
    (sdk pn : String) (e hx d n : Bool) (pM pN : Nat) (ep pi : String)
    (opts : List String)
    (h : ok (build_plugin_plan os sdk pn e hx d n pM pN ep pi opts).swig_argv = false) :
    build_plugin_exec ok os sdk pn e hx d n pM pN ep pi opts
      = { plan := build_plugin_plan os sdk pn e hx d n pM pN ep pi opts,
          attempted := [(build_plugin_plan os sdk pn e hx d n pM pN ep pi opts).swig_argv],
          success := false } := by
  unfold build_plugin_exec
  dsimp only
  rw [plan_steps_head, runSteps_fail_head _ _ _ h]

/-- A concrete Linux `build_binary_package` invocation (first pass
parameters), generic in the oracle and the file-system state. -/
def linuxPkg (ok : List String → Bool) (st : DistState) : Option PkgResult :=
  build_binary_package "Linux" false true false false false 2 7
    "/usr" "/usr/include/python2.7" "idasdk" ok SWIG_OPTIONS_init st

/-- C7: when the interface-generation (SWIG) step fails, the build run
attempts nothing further — no compile, no link — the plugin build is
unsuccessful, and no packaging happens (the file-system state is
untouched and no distribution was run). -/
theorem C7_swig_failure_aborts (ok : List String → Bool) (st : DistState)
    (h : ok (linuxPlan false).swig_argv = false) :
    (linuxPkg ok st).map (fun r => (r.pexec.attempted, r.pexec.success, r.dist, r.stOut))
      = some ([(linuxPlan false).swig_argv], false, none, st) := by
  have hex := build_plugin_exec_swig_fail ok .linux "idasdk" "python.plx"
    false false false false 2 7 "/usr" "/usr/include/python2.7" SWIG_OPTIONS_init h
  unfold linuxPkg build_binary_package
  rw [show detect_platform "Linux" false = some (OS.linux, "python.plx") from by decide]
  simp only [hex]
  rfl

/-- Witness for C7 with an oracle failing every external call. -/
theorem C7_swig_failure_aborts_witness :
    ((linuxPkg (fun _ => false) exampleState).map
      (fun r => (r.pexec.attempted, r.pexec.success, r.dist, r.stOut)))
      = some ([(linuxPlan false).swig_argv], false, none, exampleState) :=
  C7_swig_failure_aborts (fun _ => false) exampleState rfl

/-- A file-system state holding every source file the binary-package
manifests mention, plus the two built plugin binaries. -/
def stAll : DistState :=
  { files := ((BINDIST_MANIFEST ++ pymodEntries).map fun e => (srcOf e, "x"))
      ++ [(["python.plx"], "x"), (["python.plx64"], "x")]
    dirs := []
    zips := [] }

/-- A full `main()`-style driver run on Linux with `--ea64`, all
external tools succeeding. -/
def driverRun : Option (PkgResult × Option PkgResult) :=
  driver_main "Linux" true false false false 2 7 "/usr" "/usr/include/python2.7"
    "idasdk" (fun _ => true) stAll

/-- C9: the driver's second binary-package pass targets the same
version-derived directory as the first, runs in append mode
(`nukeold = false`), and its manifest is exactly the one new plugin
binary entry — no auxiliary files, no support modules. -/
theorem C9_second_pass_appends_only_plugin :
    driverRun.map (fun pr => (pr.1.distdir, pr.2.map fun r => (r.distdir, r.nuke, r.manifest)))
      = some ("idapython-1.7.2_ida6.8_py2.7_linux",
          some ("idapython-1.7.2_ida6.8_py2.7_linux", false,
            [Entry.routed ["python.plx64"] "plugins"])) := by decide

/-- The same driver run with the with-hexrays feature flag set. -/
def driverRunHx : Option (PkgResult × Option PkgResult) :=
  driver_main "Linux" true true false false 2 7 "/usr" "/usr/include/python2.7"
    "idasdk" (fun _ => true) stAll

/-- C1 counterexample: interface-compiler options accumulate in the
mutable global across invocations.  In the driver's own hexrays run the
second (64-bit append) pass's SWIG command line carries the
`-DWITH_HEXRAYS` appended by the first pass, holding the option twice
where a fresh invocation holds it once; and a plugin build invoked
after a win32 invocation carries `-D__NT__` into a linux SWIG command
line, where a fresh linux invocation has none. -/
theorem C1_counterexample :
    (driverRunHx.map (fun pr => pr.2.map fun r =>
        r.pexec.plan.swig_argv.count "-DWITH_HEXRAYS") = some (some 2)) ∧
    (build_plugin_plan .linux "idasdk" "python.plx64" true true false false 2 7
        "/usr" "/usr/include/python2.7" SWIG_OPTIONS_init).swig_argv.count
        "-DWITH_HEXRAYS" = 1 ∧
    "-D__NT__" ∈ (build_plugin_plan .linux "idasdk" "python.plx" false false false
        false 2 7 "/usr" "/usr/include/python2.7"
        (build_plugin_plan .win32 "idasdk" "python.plw" false false false false 2 7
          "/usr" "/usr/include/python2.7" SWIG_OPTIONS_init).swig_options).swig_argv ∧
    "-D__NT__" ∉ (linuxPlan false).swig_argv := by decide

/-- C1 amended: the compile-step argvs (and hence their macro sets) of
one `build_plugin` invocation are computed afresh, independent of the
accumulated interface-compiler option state; the `SWIG_OPTIONS` global,
however, accumulates — each invocation appends its win32 and
with-hexrays options to whatever it inherited, so a later invocation's
SWIG command line carries options appended by earlier invocations. -/
theorem C1_amended_option_accumulation (opts : List String) (os : OS)
    (sdk pn : String) (e hx d n : Bool) (pM pN : Nat) (ep pi : String) :
    (build_plugin_plan os sdk pn e hx d n pM pN ep pi opts).compile1
      = (build_plugin_plan os sdk pn e hx d n pM pN ep pi SWIG_OPTIONS_init).compile1 ∧
    (build_plugin_plan os sdk pn e hx d n pM pN ep pi opts).compile2
      = (build_plugin_plan os sdk pn e hx d n pM pN ep pi SWIG_OPTIONS_init).compile2 ∧
    (build_plugin_plan os sdk pn e hx d n pM pN ep pi opts).swig_options
      = opts ++ (if os = .win32 then ["-D__NT__"] else [])
        ++ (if hx then ["-DWITH_HEXRAYS"] else []) := by
  cases os <;> cases hx <;>
    exact ⟨rfl, rfl, by simp [build_plugin_plan]⟩

end BuildPy
